import Mathlib

/-!
Verification of the request-validation / scoring service
(`python_homework_03`: `scoring.py`, `models.py`, `api.py`).

The Python code is shallowly embedded: JSON-ish runtime values become the
inductive type `PyVal` (with Python truthiness `truthy`), each field
validator becomes a function returning the `(ok, error)` pair of the source
(`Except` is used where the source can raise an exception out of
`validate`), request construction threads the descriptor `__set__`
validation in source order, and the dispatcher `method_handler` becomes a
function over an envelope record.  External collaborators (the SHA-512
digest, the wall clock, the random sampler) are injected as parameters,
exactly as the spec directs for storage-like collaborators.
-/

/-- A scalar Python runtime value as far as this service observes it. -/
inductive PyScalar where
  | none
  | str (s : String)
  | int (n : Int)
deriving DecidableEq, Repr

/-- A Python runtime value: a scalar, or a list of scalars (nested lists
never reach any validator of this service). -/
inductive PyVal where
  | none
  | str (s : String)
  | int (n : Int)
  | list (xs : List PyScalar)
deriving DecidableEq, Repr

/-- Python truthiness of a `PyVal` (`if value:`):
None is falsy, a string is truthy iff non-empty, an integer iff non-zero,
a list iff non-empty. -/
def truthy : PyVal → Bool
  | PyVal.none => false
  | PyVal.str s => decide (s ≠ "")
  | PyVal.int n => decide (n ≠ 0)
  | PyVal.list xs => decide (xs ≠ [])

/-- Python `str(value)` for a scalar (`str(None) = "None"`). -/
def pyScalarStr : PyScalar → String
  | PyScalar.none => "None"
  | PyScalar.str s => s
  | PyScalar.int n => toString n

/-- Python `str(value)` for the values in `PyVal` (for lists the exact repr
is irrelevant to every claim, only that it never matches a date pattern,
which holds because it starts with a bracket). -/
def pyStr : PyVal → String
  | PyVal.none => "None"
  | PyVal.str s => s
  | PyVal.int n => toString n
  | PyVal.list xs => "[" ++ String.intercalate (", ") (xs.map pyScalarStr) ++ "]"

/-- `scoring.get_score`: sums 1.5 for truthy phone, 1.5 for truthy email,
1.5 when birthday and gender are both truthy, 0.5 when first and last name
are both truthy.  The float result is modelled exactly as a rational. -/
def get_score (phone email birthday gender first_name last_name : PyVal) : Rat :=
  let score : Rat := 0
  let score := if truthy phone then score + 3 / 2 else score
  let score := if truthy email then score + 3 / 2 else score
  let score := if truthy birthday && truthy gender then score + 3 / 2 else score
  let score := if truthy first_name && truthy last_name then score + 1 / 2 else score
  score

/-- The fixed 11-tag vocabulary of `scoring.get_interests`. -/
def interests : List String :=
  ["cars", "pets", "travel", "hi-tech", "sport", "music", "books", "tv",
   "cinema", "geek", "otus"]

/-- One outcome of `random.sample(interests, 2)`: the random source is the
pair of indices `(i, j0)`; `i` picks the first element, `j0` picks the
second among the ten remaining, so every 2-element without-replacement
outcome is reachable and the two picks always differ. -/
def sampleAt (i : Fin 11) (j0 : Fin 10) : List String :=
  let j : Nat := if i.val ≤ j0.val then j0.val + 1 else j0.val
  [interests.getD i.val (""), interests.getD j ("")]

/-- `random.sample(interests, 2)` driven by an injected seed. -/
def randomSample (seed : Nat) : List String :=
  sampleAt ⟨seed % 11, Nat.mod_lt _ (by decide)⟩ ⟨seed / 11 % 10, Nat.mod_lt _ (by decide)⟩

/-- `scoring.get_interests(store, cid)`: ignores the store and the client
id and returns a fresh 2-element sample; the random source is injected. -/
def get_interests (seed : Nat) (_cid : Int) : List String :=
  randomSample seed

/-- Predicate used by the interests claims: a list of exactly two distinct
tags drawn from the fixed vocabulary. -/
def goodTagPair (l : List String) : Bool :=
  (l.length == 2) && (decide l.Nodup) && l.all (fun t => decide (t ∈ interests))

/-! ## Field validators (`models.py`)

Each `XField.validate` becomes `XField_validate name required nullable value`
returning the `(ok, error)` pair of the source; `DateField` (and so
`BirthDayField`) returns `Except`, because its `strptime` call can raise a
`ValueError` out of `validate` for strings that match the regex but do not
parse. -/

/-- `CharField.validate`. -/
def CharField_validate (name : String) (required nullable : Bool) (value : PyVal) :
    Bool × Option String :=
  if required = true ∧ value = PyVal.none then (false, some (name ++ " is required"))
  else if required = false ∧ value = PyVal.none then (true, none)
  else match value with
    | PyVal.str s =>
        if nullable = false ∧ s = "" then
          (false, some (name ++ " must be a non empty string"))
        else (true, none)
    | _ => (false, some (name ++ " must be a string"))

/-- `EmailField.validate`: the `CharField` rules, then `str(value)` must
contain an at sign.  Note that an absent optional value passes the
`CharField` stage but then `str(None) = "None"` fails the at-sign test. -/
def EmailField_validate (name : String) (required nullable : Bool) (value : PyVal) :
    Bool × Option String :=
  match CharField_validate name required nullable value with
  | (false, msg) => (false, msg)
  | (true, _) =>
      let v := pyStr value
      if v.toList.contains ('@') = false then (false, some (name ++ " must be a valid email"))
      else (true, none)

/-- Python `value.startswith("7")` on the character sequence. -/
def pyStartsWith7 (s : String) : Bool :=
  match s.toList with
  | c :: _ => c == '7'
  | [] => false

/-- Python `len(value)` for a string: the number of characters. -/
def pyLen (s : String) : Nat := s.toList.length

/-- `PhoneField.validate`: no early return for an absent optional value, so
`None` falls into the not-a-string-or-integer branch. -/
def PhoneField_validate (name : String) (required nullable : Bool) (value : PyVal) :
    Bool × Option String :=
  if required = true ∧ value = PyVal.none then (false, some (name ++ " is required"))
  else match value with
    | PyVal.int n =>
        if nullable = false ∧ n = 0 then
          (false, some (name ++ " must be a non emptyvalid phone number"))
        else if n < 70000000000 ∨ n > 79999999999 then
          (false, some (name ++ " must be a valid phone number"))
        else (true, none)
    | PyVal.str s =>
        if nullable = false ∧ s = "" then
          (false, some (name ++ " must be a non empty valid phone number"))
        else if pyStartsWith7 s = false ∨ pyLen s ≠ 11 then
          (false, some (name ++ " must be a valid phone number"))
        else (true, none)
    | _ => (false, some (name ++ " must be a string or an integer"))

/-- Numeric value of a decimal digit character. -/
def digitVal (c : Char) : Nat := c.toNat - 48

/-- The prefix test `re.match(r"\d\x7b2\x7d\.\d\x7b2\x7d\.\d\x7b4\x7d", value)`
together with the reading of the matched digits: `re.match` anchors only at
the start, so trailing characters are allowed here (their count is returned
as the fourth component and only `strptime` trips over them). -/
def decomposeDate (s : String) : Option (Nat × Nat × Nat × Nat) :=
  match s.toList with
  | d1 :: d2 :: '.' :: m1 :: m2 :: '.' :: y1 :: y2 :: y3 :: y4 :: rest =>
      if d1.isDigit && d2.isDigit && m1.isDigit && m2.isDigit &&
         y1.isDigit && y2.isDigit && y3.isDigit && y4.isDigit then
        some (digitVal d1 * 10 + digitVal d2,
              digitVal m1 * 10 + digitVal m2,
              ((digitVal y1 * 10 + digitVal y2) * 10 + digitVal y3) * 10 + digitVal y4,
              rest.length)
      else none
  | _ => none

/-- Proleptic Gregorian leap year, as Python `datetime` uses. -/
def isLeapYear (y : Nat) : Bool :=
  y % 4 == 0 && (y % 100 != 0 || y % 400 == 0)

/-- Days in a month of the proleptic Gregorian calendar. -/
def daysInMonth (y m : Nat) : Nat :=
  if m == 2 then (if isLeapYear y then 29 else 28)
  else if m == 4 || m == 6 || m == 9 || m == 11 then 30
  else 31

/-- `DateField.validate`.  After the regex prefix matched,
`datetime.strptime(value, "%d.%m.%Y")` raises `ValueError` (modelled as
`Except.error`) when the day or month is outside the format ranges, when
trailing characters remain, when the year is 0, or when the day does not
exist in that month; the raise escapes `validate`.  The final source check
`parsed_date == date.min` compares a `datetime` to a `date`, which in
Python is always `False`, so that branch is unreachable and is omitted. -/
def DateField_validate (name : String) (required _nullable : Bool) (value : PyVal) :
    Except String (Bool × Option String) :=
  if required = true ∧ value = PyVal.none then
    Except.ok (false, some (name ++ " is required"))
  else
    match decomposeDate (pyStr value) with
    | Option.none => Except.ok (false, some (name ++ " must be a valid date"))
    | Option.some (d, m, y, restLen) =>
        if ¬ (1 ≤ d ∧ d ≤ 31 ∧ 1 ≤ m ∧ m ≤ 12) then
          Except.error ("time data does not match format %d.%m.%Y")
        else if restLen ≠ 0 then
          Except.error ("unconverted data remains")
        else if y = 0 then
          Except.error ("year 0 is out of range")
        else if daysInMonth y m < d then
          Except.error ("day is out of range for month")
        else
          Except.ok (true, none)

/-- `BirthDayField.validate`: the `DateField` rules, then the parsed year
must be strictly greater than the current year minus 70.  The current year
(`datetime.now().year`) is injected.  The inner `Option.none` branch is
unreachable because the `DateField` stage only succeeds after
`decomposeDate` returned `some`. -/
def BirthDayField_validate (name : String) (currentYear : Int) (required nullable : Bool)
    (value : PyVal) : Except String (Bool × Option String) :=
  match DateField_validate name required nullable value with
  | Except.error e => Except.error e
  | Except.ok (false, msg) => Except.ok (false, msg)
  | Except.ok (true, _) =>
      match decomposeDate (pyStr value) with
      | Option.some (_d, _m, y, _restLen) =>
          if ¬ ((y : Int) > currentYear - 70) then
            Except.ok (false, some (name ++ " must be less than 70 years old"))
          else Except.ok (true, none)
      | Option.none => Except.ok (true, none)

/-- `GenderField.validate`: an integer in 0, 1, 2; like `PhoneField` there
is no early return for an absent optional value. -/
def GenderField_validate (name : String) (required _nullable : Bool) (value : PyVal) :
    Bool × Option String :=
  if required = true ∧ value = PyVal.none then (false, some (name ++ " is required"))
  else match value with
    | PyVal.int n =>
        if n = 0 ∨ n = 1 ∨ n = 2 then (true, none)
        else (false, some (name ++ " must be 0, 1 or 2"))
    | _ => (false, some (name ++ " must be an integer"))

/-- Whether a scalar is a Python integer. -/
def isIntScalar : PyScalar → Bool
  | PyScalar.int _ => true
  | _ => false

/-- `ClientIDsField.validate`. -/
def ClientIDsField_validate (name : String) (required nullable : Bool) (value : PyVal) :
    Bool × Option String :=
  if required = true ∧ value = PyVal.none then (false, some (name ++ " is required"))
  else match value with
    | PyVal.list xs =>
        if xs.all isIntScalar = false then
          (false, some (name ++ " must be a list of integers"))
        else if nullable = false ∧ xs = [] then
          (false, some (name ++ " must be a non empty list of integers"))
        else (true, none)
    | _ => (false, some (name ++ " must be a list of integers"))

/-! ## Request schemas and authentication (`models.py`) -/

/-- The keys of the `arguments` JSON object that any schema of this service
ever reads; `PyVal.none` stands for an absent key (exactly what
`data.get(key, None)` yields). -/
structure ArgsDict where
  phone : PyVal
  email : PyVal
  first_name : PyVal
  last_name : PyVal
  birthday : PyVal
  gender : PyVal
  client_ids : PyVal
  date : PyVal
deriving DecidableEq, Repr

/-- The `arguments` dict with every tracked key absent. -/
def emptyArgsDict : ArgsDict :=
  ⟨PyVal.none, PyVal.none, PyVal.none, PyVal.none,
   PyVal.none, PyVal.none, PyVal.none, PyVal.none⟩

/-- `ArgumentsField.validate`: the envelope `arguments` value is either
absent (`Option.none`) or a dict.  The source `value == dict()` emptiness
test is approximated by all tracked keys being absent; the branch is dead
in this repository because the field is declared nullable. -/
def ArgumentsField_validate (name : String) (required nullable : Bool)
    (value : Option ArgsDict) : Bool × Option String :=
  if required = true ∧ value = Option.none then (false, some (name ++ " is required"))
  else match value with
    | Option.none => (false, some (name ++ " must be a dictionary"))
    | Option.some d =>
        if nullable = false ∧ d = emptyArgsDict then
          (false, some (name ++ " must be a non empty dictionary"))
        else (true, none)

/-- The decoded JSON body of a request as `MethodRequest.__init__` reads
it: the five envelope keys, each `PyVal.none` when absent; `arguments` is
either absent or a dict. -/
structure EnvelopeInput where
  account : PyVal
  login : PyVal
  token : PyVal
  method : PyVal
  arguments : Option ArgsDict
deriving DecidableEq, Repr

/-- A successfully constructed `MethodRequest`: field validation has
refined `login`, `token` and `method` to strings, `account` to an optional
string, and `arguments` to a dict. -/
structure MethodRequestState where
  account : Option String
  login : String
  token : String
  method : String
  arguments : ArgsDict
deriving DecidableEq, Repr

/-- Extraction of a validated required string field (the non-string branch
is unreachable after `CharField` validation succeeded). -/
def asStr : PyVal → String
  | PyVal.str s => s
  | _ => ""

/-- Extraction of a validated optional string field. -/
def asOptStr : PyVal → Option String
  | PyVal.str s => some s
  | _ => Option.none

/-- `MethodRequest.__init__`: assigns (and so validates) `account`,
`login`, `token`, `arguments`, `method` in source order; the first failing
descriptor `__set__` raises `ValueError("Invalid field value for ...")`. -/
def MethodRequest_construct (e : EnvelopeInput) : Except String MethodRequestState :=
  match CharField_validate ("account") false true e.account with
  | (false, msg) => Except.error ("Invalid field value for account: " ++ msg.getD (""))
  | (true, _) =>
  match CharField_validate ("login") true true e.login with
  | (false, msg) => Except.error ("Invalid field value for login: " ++ msg.getD (""))
  | (true, _) =>
  match CharField_validate ("token") true true e.token with
  | (false, msg) => Except.error ("Invalid field value for token: " ++ msg.getD (""))
  | (true, _) =>
  match ArgumentsField_validate ("arguments") true true e.arguments with
  | (false, msg) => Except.error ("Invalid field value for arguments: " ++ msg.getD (""))
  | (true, _) =>
  match CharField_validate ("method") true false e.method with
  | (false, msg) => Except.error ("Invalid field value for method: " ++ msg.getD (""))
  | (true, _) =>
      Except.ok ⟨asOptStr e.account, asStr e.login, asStr e.token, asStr e.method,
                 e.arguments.getD emptyArgsDict⟩

/-- Module constant `SALT`. -/
def SALT : String := "Otus"

/-- Module constant `ADMIN_LOGIN`. -/
def ADMIN_LOGIN : String := "admin"

/-- Module constant `ADMIN_SALT`. -/
def ADMIN_SALT : String := "42"

/-- `MethodRequest.is_admin`. -/
def MethodRequest_is_admin (st : MethodRequestState) : Bool :=
  st.login == ADMIN_LOGIN

/-- Python `self.account if self.account else ""`. -/
def pyOrEmptyStr (account : Option String) : String :=
  match account with
  | Option.none => ""
  | Option.some s => if s == "" then "" else s

/-- `MethodRequest.check_auth`: the SHA-512 lowercase-hex digest function
and the formatted current hour `datetime.now().strftime("%Y%m%d%H")` are
injected collaborators. -/
def check_auth (sha512hex : String → String) (nowHourStr : String)
    (st : MethodRequestState) : Bool :=
  let digest :=
    if MethodRequest_is_admin st then sha512hex (nowHourStr ++ ADMIN_SALT)
    else sha512hex (pyOrEmptyStr st.account ++ st.login ++ SALT)
  digest == st.token

/-- A successfully constructed `OnlineScoreRequest`: the six field values
exactly as the descriptors stored them. -/
structure ScoreState where
  phone : PyVal
  email : PyVal
  first_name : PyVal
  last_name : PyVal
  birthday : PyVal
  gender : PyVal
deriving DecidableEq, Repr

/-- `OnlineScoreRequest.__init__`: validates `phone`, `email`,
`first_name`, `last_name`, `birthday`, `gender` in source order; a
`ValueError` raised inside `BirthDayField.validate` by `strptime`
propagates as-is, a `(False, msg)` verdict raises the
`Invalid field value` wrapper. -/
def OnlineScoreRequest_construct (currentYear : Int) (d : ArgsDict) :
    Except String ScoreState :=
  match PhoneField_validate ("phone") false true d.phone with
  | (false, msg) => Except.error ("Invalid field value for phone: " ++ msg.getD (""))
  | (true, _) =>
  match EmailField_validate ("email") false true d.email with
  | (false, msg) => Except.error ("Invalid field value for email: " ++ msg.getD (""))
  | (true, _) =>
  match CharField_validate ("first_name") false true d.first_name with
  | (false, msg) => Except.error ("Invalid field value for first_name: " ++ msg.getD (""))
  | (true, _) =>
  match CharField_validate ("last_name") false true d.last_name with
  | (false, msg) => Except.error ("Invalid field value for last_name: " ++ msg.getD (""))
  | (true, _) =>
  match BirthDayField_validate ("birthday") currentYear false true d.birthday with
  | Except.error e => Except.error e
  | Except.ok (false, msg) =>
      Except.error ("Invalid field value for birthday: " ++ msg.getD (""))
  | Except.ok (true, _) =>
  match GenderField_validate ("gender") false true d.gender with
  | (false, msg) => Except.error ("Invalid field value for gender: " ++ msg.getD (""))
  | (true, _) =>
      Except.ok ⟨d.phone, d.email, d.first_name, d.last_name, d.birthday, d.gender⟩

/-- `OnlineScoreRequest.validate`: the cross-field pair rule, using Python
truthiness of the stored values. -/
def OnlineScoreRequest_validate (st : ScoreState) : Bool :=
  if truthy st.phone && truthy st.email then true
  else if truthy st.first_name && truthy st.last_name then true
  else if truthy st.gender && truthy st.birthday then true
  else false

/-- `OnlineScoreRequest.execute`: raises `ValueError("Invalid arguments")`
when the cross-field rule fails, else returns the score payload. -/
def OnlineScoreRequest_execute (st : ScoreState) : Except String Rat :=
  if OnlineScoreRequest_validate st = false then Except.error ("Invalid arguments")
  else
    Except.ok (get_score st.phone st.email st.birthday st.gender st.first_name st.last_name)

/-- A successfully constructed `ClientsInterestsRequest`. -/
structure InterestsState where
  client_ids : List Int
  date : PyVal
deriving DecidableEq, Repr

/-- The integers of a validated client-ids list. -/
def scalarsToInts (xs : List PyScalar) : List Int :=
  xs.filterMap (fun v => match v with | PyScalar.int n => some n | _ => Option.none)

/-- Extraction of a validated integer-list field. -/
def asIntList (v : PyVal) : List Int :=
  match v with
  | PyVal.list xs => scalarsToInts xs
  | _ => []

/-- `ClientsInterestsRequest.__init__`: validates `client_ids`
(required, non-nullable) then `date` (optional, nullable) in source order. -/
def ClientsInterestsRequest_construct (d : ArgsDict) : Except String InterestsState :=
  match ClientIDsField_validate ("client_ids") true false d.client_ids with
  | (false, msg) => Except.error ("Invalid field value for client_ids: " ++ msg.getD (""))
  | (true, _) =>
  match DateField_validate ("date") false true d.date with
  | Except.error e => Except.error e
  | Except.ok (false, msg) =>
      Except.error ("Invalid field value for date: " ++ msg.getD (""))
  | Except.ok (true, _) => Except.ok ⟨asIntList d.client_ids, d.date⟩

/-- `ClientsInterestsRequest.execute`: the dict comprehension keyed by the
client ids, modelled as an association list in insertion order (for
duplicate ids the Python dict would keep one key; the claims only use
distinct ids).  The per-client random seed is injected. -/
def ClientsInterestsRequest_execute (seedFn : Int → Nat) (st : InterestsState) :
    List (Int × List String) :=
  st.client_ids.map (fun cid => (cid, get_interests (seedFn cid) cid))

/-! ## Dispatcher (`api.py`) -/

/-- Status code 200. -/
def statusOK : Nat := 200

/-- Status code 403. -/
def statusFORBIDDEN : Nat := 403

/-- Status code 422. -/
def statusINVALID_REQUEST : Nat := 422

/-- A method payload: the score dict or the interests mapping. -/
inductive Payload where
  | score (v : Rat)
  | interests (m : List (Int × List String))
deriving DecidableEq, Repr

/-- The outcome of `method_handler` as `do_POST` sees it: a returned
`(response, code)` pair for a payload or an error message, or an exception
that escapes `method_handler` (mapped to 500 by `do_POST`). -/
inductive HandlerResult where
  | response (p : Payload) (code : Nat)
  | failure (msg : String) (code : Nat)
  | unhandled (msg : String)
deriving DecidableEq, Repr

/-- `api.method_handler`.  Faithful to the source control flow:
envelope construction failure is caught as 422; a false `check_auth` is
returned as 403 before any routing; in the `online_score` branch the call
`argument_request.get_fields()` is evaluated right after construction, and
no `get_fields` method exists anywhere in the repository, so an
`AttributeError` escapes the `except ValueError` handler and the admin
shortcut and `execute()` below it are unreachable; the
`clients_interests` branch executes normally; an unknown method is 422. -/
def method_handler (sha512hex : String → String) (nowHourStr : String)
    (currentYear : Int) (seedFn : Int → Nat) (e : EnvelopeInput) : HandlerResult :=
  match MethodRequest_construct e with
  | Except.error msg => HandlerResult.failure msg statusINVALID_REQUEST
  | Except.ok st =>
    if check_auth sha512hex nowHourStr st = false then
      HandlerResult.failure ("Forbidden") statusFORBIDDEN
    else if st.method == "online_score" then
      match OnlineScoreRequest_construct currentYear st.arguments with
      | Except.error msg => HandlerResult.failure msg statusINVALID_REQUEST
      | Except.ok _ =>
          HandlerResult.unhandled
            ("AttributeError: OnlineScoreRequest object has no attribute get_fields")
    else if st.method == "clients_interests" then
      match ClientsInterestsRequest_construct st.arguments with
      | Except.error msg => HandlerResult.failure msg statusINVALID_REQUEST
      | Except.ok ist =>
          HandlerResult.response
            (Payload.interests (ClientsInterestsRequest_execute seedFn ist)) statusOK
    else HandlerResult.failure ("Invalid method") statusINVALID_REQUEST

/-- Modelled from the spec wording of C7: a string that matches
`DD.MM.YYYY` in full and denotes a real (proleptic Gregorian) calendar
date.  Used to compare the code path of `DateField_validate` against the
acceptance set the spec describes. -/
def specDateOk (s : String) : Bool :=
  match decomposeDate s with
  | Option.some (d, m, y, restLen) =>
      restLen == 0 && decide (1 ≤ d) && decide (1 ≤ m) && decide (m ≤ 12) &&
      decide (1 ≤ y) && decide (d ≤ daysInMonth y m)
  | Option.none => false

/-! ## Theorems -/

theorem sampleAt_good (i : Fin 11) (j0 : Fin 10) : goodTagPair (sampleAt i j0) = true := by
  revert i j0
  decide

theorem randomSample_good (seed : Nat) : goodTagPair (randomSample seed) = true := by
  unfold randomSample
  exact sampleAt_good _ _

theorem truthy_none_eq : truthy PyVal.none = false := rfl

/-- C1 counterexample: the claim says phone+email alone score 1.5 and all
six fields score 3.5, but `get_score` adds 1.5 for phone and 1.5 for email
independently, so phone+email alone score 3.0 and all six score 5.0. -/
theorem claim_C1_counterexample :
    get_score (PyVal.str ("79175002040")) (PyVal.str ("a@b.ru"))
      PyVal.none PyVal.none PyVal.none PyVal.none ≠ 3 / 2 ∧
    get_score (PyVal.str ("79175002040")) (PyVal.str ("a@b.ru"))
      (PyVal.str ("01.01.1990")) (PyVal.int 1) (PyVal.str ("a")) (PyVal.str ("b"))
      ≠ 7 / 2 := by
  constructor <;> · simp [get_score, truthy]; norm_num

/-- C1 amended: the name pair alone scores 0.5; phone+email alone score
3.0 (1.5 each, independently); all six fields together score 5.0
(1.5 + 1.5 + 1.5 for birthday/gender + 0.5 for the name pair). -/
theorem claim_C1_score_pairs_amended :
    (∀ fn ln : String, fn ≠ "" → ln ≠ "" →
      get_score PyVal.none PyVal.none PyVal.none PyVal.none (PyVal.str fn) (PyVal.str ln)
        = 1 / 2) ∧
    (∀ p e : PyVal, truthy p = true → truthy e = true →
      get_score p e PyVal.none PyVal.none PyVal.none PyVal.none = 3) ∧
    (∀ p e b g fn ln : PyVal, truthy p = true → truthy e = true →
      truthy b = true → truthy g = true → truthy fn = true → truthy ln = true →
      get_score p e b g fn ln = 5) := by
  refine ⟨?_, ?_, ?_⟩
  · intro fn ln hfn hln
    have h1 : truthy (PyVal.str fn) = true := by simp [truthy, hfn]
    have h2 : truthy (PyVal.str ln) = true := by simp [truthy, hln]
    simp [get_score, truthy_none_eq, h1, h2]
    try norm_num
  · intro p e hp he
    simp [get_score, truthy_none_eq, hp, he]
    try norm_num
  · intro p e b g fn ln hp he hb hg hfn hln
    simp [get_score, hp, he, hb, hg, hfn, hln]
    try norm_num

/-- Witness for the amended C1 at concrete inputs. -/
theorem claim_C1_score_pairs_witness :
    get_score PyVal.none PyVal.none PyVal.none PyVal.none
      (PyVal.str ("a")) (PyVal.str ("b")) = 1 / 2 ∧
    get_score (PyVal.str ("79175002040")) (PyVal.str ("a@b.ru"))
      PyVal.none PyVal.none PyVal.none PyVal.none = 3 ∧
    get_score (PyVal.str ("79175002040")) (PyVal.str ("a@b.ru"))
      (PyVal.str ("01.01.1990")) (PyVal.int 1) (PyVal.str ("a")) (PyVal.str ("b"))
      = 5 :=
  ⟨claim_C1_score_pairs_amended.1 ("a") ("b") (by decide) (by decide),
   claim_C1_score_pairs_amended.2.1 _ _ (by decide) (by decide),
   claim_C1_score_pairs_amended.2.2 _ _ _ _ _ _ (by decide) (by decide) (by decide)
     (by decide) (by decide) (by decide)⟩


/-- C2: evaluation at the failing inputs.  Constructing the interests
request with `date` absent fails (the `DateField` validator has no early
return for an absent optional value: `str(None)` fails the regex), and
constructing the score request with only the valid pair phone+email fails
on the absent `birthday` for the same reason, although both fields are
declared `required=False, nullable=True`. -/
theorem claim_C2_optional_absent_fails :
    ClientsInterestsRequest_construct
      ⟨PyVal.none, PyVal.none, PyVal.none, PyVal.none, PyVal.none, PyVal.none,
       PyVal.list [PyScalar.int 1, PyScalar.int 2, PyScalar.int 3], PyVal.none⟩
      = Except.error ("Invalid field value for date: date must be a valid date") ∧
    OnlineScoreRequest_construct 2026
      ⟨PyVal.str ("79175002040"), PyVal.str ("a@b.ru"), PyVal.none, PyVal.none,
       PyVal.none, PyVal.none, PyVal.none, PyVal.none⟩
      = Except.error ("Invalid field value for birthday: birthday must be a valid date") := by
  exact ⟨rfl, rfl⟩

/-- C5: evaluation at the failing input.  An authenticated admin
`online_score` request whose arguments pass every per-field check does not
produce the score-42 payload: the dispatcher evaluates the non-existent
`get_fields()` right after construction, so an `AttributeError` escapes
(500 at the transport layer) before the admin shortcut is reached. -/
theorem claim_C5_admin_attribute_error :
    method_handler (fun _ => "T") ("2026101210") 2026 (fun _ => 0)
      ⟨PyVal.str ("horns"), PyVal.str ("admin"), PyVal.str ("T"),
       PyVal.str ("online_score"),
       Option.some ⟨PyVal.str ("79175002040"), PyVal.str ("a@b.ru"), PyVal.str ("a"),
          PyVal.str ("b"), PyVal.str ("01.01.1990"), PyVal.int 1, PyVal.none, PyVal.none⟩⟩
      = HandlerResult.unhandled
          ("AttributeError: OnlineScoreRequest object has no attribute get_fields") := by
  rfl

/-- C3 counterexample: a score-arguments state whose (gender, birthday)
pair has both members present (not `None`) and individually field-valid,
yet `execute` fails, because the cross-field rule uses truthiness and
gender 0 is falsy.  The claim as stated (present = supplied) is false. -/
theorem claim_C3_counterexample :
    OnlineScoreRequest_execute
      ⟨PyVal.none, PyVal.none, PyVal.none, PyVal.none,
       PyVal.str ("01.01.2000"), PyVal.int 0⟩
      = Except.error ("Invalid arguments") ∧
    PyVal.int 0 ≠ PyVal.none ∧ PyVal.str ("01.01.2000") ≠ PyVal.none ∧
    (GenderField_validate ("gender") false true (PyVal.int 0)).1 = true ∧
    BirthDayField_validate ("birthday") 2026 false true (PyVal.str ("01.01.2000"))
      = Except.ok (true, none) := by
  exact ⟨rfl, by decide, by decide, rfl, rfl⟩

theorem OnlineScoreRequest_validate_iff (st : ScoreState) :
    OnlineScoreRequest_validate st = true ↔
      ((truthy st.phone = true ∧ truthy st.email = true) ∨
       (truthy st.first_name = true ∧ truthy st.last_name = true) ∨
       (truthy st.gender = true ∧ truthy st.birthday = true)) := by
  unfold OnlineScoreRequest_validate
  cases hp : truthy st.phone <;> cases he : truthy st.email <;>
    cases hf : truthy st.first_name <;> cases hl : truthy st.last_name <;>
    cases hg : truthy st.gender <;> cases hb : truthy st.birthday <;> simp

/-- C3 amended: `execute` fails with the invalid-arguments error iff none
of the pairs (phone, email), (first_name, last_name), (gender, birthday)
has both members present with truthy values (non-empty strings, non-zero
integers); with at least one fully truthy pair it returns the score
payload computed by the Scoring Engine. -/
theorem claim_C3_execute_amended (st : ScoreState) :
    (OnlineScoreRequest_execute st = Except.error ("Invalid arguments") ↔
      ¬ ((truthy st.phone = true ∧ truthy st.email = true) ∨
         (truthy st.first_name = true ∧ truthy st.last_name = true) ∨
         (truthy st.gender = true ∧ truthy st.birthday = true))) ∧
    (((truthy st.phone = true ∧ truthy st.email = true) ∨
      (truthy st.first_name = true ∧ truthy st.last_name = true) ∨
      (truthy st.gender = true ∧ truthy st.birthday = true)) →
      OnlineScoreRequest_execute st
        = Except.ok (get_score st.phone st.email st.birthday st.gender
            st.first_name st.last_name)) := by
  constructor
  · constructor
    · intro h hd
      have hv : OnlineScoreRequest_validate st = true :=
        (OnlineScoreRequest_validate_iff st).mpr hd
      simp [OnlineScoreRequest_execute, hv] at h
    · intro h
      have hv : OnlineScoreRequest_validate st = false := by
        cases hval : OnlineScoreRequest_validate st
        · rfl
        · exact absurd ((OnlineScoreRequest_validate_iff st).mp hval) h
      simp [OnlineScoreRequest_execute, hv]
  · intro hd
    have hv : OnlineScoreRequest_validate st = true :=
      (OnlineScoreRequest_validate_iff st).mpr hd
    simp [OnlineScoreRequest_execute, hv]

/-- Witness for the amended C3 at a concrete state with the phone+email
pair truthy. -/
theorem claim_C3_execute_amended_witness :
    OnlineScoreRequest_execute
      ⟨PyVal.str ("79175002040"), PyVal.str ("a@b.ru"), PyVal.none, PyVal.none,
       PyVal.none, PyVal.none⟩
      = Except.ok (get_score (PyVal.str ("79175002040")) (PyVal.str ("a@b.ru"))
          PyVal.none PyVal.none PyVal.none PyVal.none) :=
  (claim_C3_execute_amended _).2 (Or.inl ⟨by decide, by decide⟩)

/-- C9: for client ids 1, 2, 3 the interests mapping has exactly those
three keys, and for every outcome of the random sampling each value is a
list of exactly two distinct tags from the fixed 11-tag vocabulary. -/
theorem claim_C9_interests_shape (seedFn : Int → Nat) :
    (ClientsInterestsRequest_execute seedFn ⟨[1, 2, 3], PyVal.none⟩).map Prod.fst
        = [1, 2, 3] ∧
    (ClientsInterestsRequest_execute seedFn ⟨[1, 2, 3], PyVal.none⟩).all
        (fun p => goodTagPair p.2) = true := by
  constructor
  · rfl
  · simp [ClientsInterestsRequest_execute, get_interests, randomSample_good]

/-- C10: gender 0 (a valid enum value, as the validator conjunct shows)
behaves exactly like an absent gender, both in `get_score` (no
birthday/gender bonus) and in the cross-field `validate`. -/
theorem claim_C10_gender_zero_like_absent (p e b fn ln : PyVal) :
    get_score p e b (PyVal.int 0) fn ln = get_score p e b PyVal.none fn ln ∧
    OnlineScoreRequest_validate ⟨p, e, fn, ln, b, PyVal.int 0⟩
      = OnlineScoreRequest_validate ⟨p, e, fn, ln, b, PyVal.none⟩ ∧
    (GenderField_validate ("gender") false true (PyVal.int 0)).1 = true := by
  refine ⟨?_, ?_, rfl⟩
  · simp [get_score, truthy]
  · simp [OnlineScoreRequest_validate, truthy]

/-- C4: `check_auth` returns true iff the token equals the digest of the
hour-string plus admin salt for an admin login, and of
(account or empty) + login + general salt otherwise.  The SHA-512
lowercase-hex function and the formatted current hour are the injected
collaborators `sha512hex` and `nowHourStr`. -/
theorem claim_C4_check_auth_iff (sha512hex : String → String) (nowHourStr : String)
    (st : MethodRequestState) :
    check_auth sha512hex nowHourStr st = true ↔
      st.token =
        (if st.login = ADMIN_LOGIN then sha512hex (nowHourStr ++ ADMIN_SALT)
         else sha512hex (pyOrEmptyStr st.account ++ st.login ++ SALT)) := by
  simp only [check_auth, MethodRequest_is_admin, beq_iff_eq]
  constructor
  · intro h
    exact h.symm
  · intro h
    exact h.symm

/-- C6: whenever the envelope constructs successfully and `check_auth` is
false, the dispatcher returns the 403 forbidden outcome, whatever the
method name and the arguments content. -/
theorem claim_C6_forbidden_first (sha512hex : String → String) (nowHourStr : String)
    (currentYear : Int) (seedFn : Int → Nat) (e : EnvelopeInput)
    (st : MethodRequestState)
    (hc : MethodRequest_construct e = Except.ok st)
    (ha : check_auth sha512hex nowHourStr st = false) :
    method_handler sha512hex nowHourStr currentYear seedFn e
      = HandlerResult.failure ("Forbidden") statusFORBIDDEN := by
  unfold method_handler
  rw [hc]
  simp [ha]

/-- Witness for C6: a request with a wrong token and arguments that would
not even pass field validation still gets 403, showing the auth check
precedes argument validation. -/
theorem claim_C6_forbidden_first_witness :
    method_handler (fun _ => "D") ("2026101210") 2026 (fun _ => 0)
      ⟨PyVal.none, PyVal.str ("h"), PyVal.str ("bad"), PyVal.str ("online_score"),
       Option.some ⟨PyVal.str ("not-a-phone"), PyVal.none, PyVal.none, PyVal.none,
          PyVal.none, PyVal.none, PyVal.none, PyVal.none⟩⟩
      = HandlerResult.failure ("Forbidden") statusFORBIDDEN :=
  claim_C6_forbidden_first (fun _ => "D") ("2026101210") 2026 (fun _ => 0) _
    ⟨Option.none, "h", "bad", "online_score",
     ⟨PyVal.str ("not-a-phone"), PyVal.none, PyVal.none, PyVal.none,
      PyVal.none, PyVal.none, PyVal.none, PyVal.none⟩⟩
    (by rfl) (by rfl)

/-- C8: phone validation accepts every 11-character string starting with 7
(hence every 11-digit string starting with 7) and every integer in
[70000000000, 79999999999]; it rejects any string whose length is not 11
(one digit shorter or longer) and any integer outside the range (one digit
shorter or longer); the numeric form is range-checked, the string form is
checked by first character and length. -/
theorem claim_C8_phone_validation :
    (∀ s : String, pyLen s = 11 → pyStartsWith7 s = true →
      PhoneField_validate ("phone") false true (PyVal.str s) = (true, none)) ∧
    (∀ n : Int, 70000000000 ≤ n → n ≤ 79999999999 →
      PhoneField_validate ("phone") false true (PyVal.int n) = (true, none)) ∧
    (∀ n : Int, n < 70000000000 ∨ n > 79999999999 →
      PhoneField_validate ("phone") false true (PyVal.int n)
        = (false, some ("phone must be a valid phone number"))) ∧
    (∀ s : String, pyLen s ≠ 11 →
      PhoneField_validate ("phone") false true (PyVal.str s)
        = (false, some ("phone must be a valid phone number"))) := by
  refine ⟨?_, ?_, ?_, ?_⟩
  · intro s h1 h2
    simp [PhoneField_validate, h1, h2]
  · intro n h1 h2
    rw [PhoneField_validate]
    rw [if_neg (by simp)]
    rw [if_neg (by simp), if_neg (by omega)]
  · intro n h
    rw [PhoneField_validate]
    rw [if_neg (by simp)]
    rw [if_neg (by simp), if_pos (by omega)]
    rfl
  · intro s h
    simp [PhoneField_validate, h]

/-- Witness for C8 at concrete inputs: an 11-digit string and an in-range
integer pass, a 10-character string and an out-of-range integer fail. -/
theorem claim_C8_phone_validation_witness :
    PhoneField_validate ("phone") false true (PyVal.str ("79175002040")) = (true, none) ∧
    PhoneField_validate ("phone") false true (PyVal.int 79175002040) = (true, none) ∧
    PhoneField_validate ("phone") false true (PyVal.int 7917500204)
      = (false, some ("phone must be a valid phone number")) ∧
    PhoneField_validate ("phone") false true (PyVal.str ("7917500204"))
      = (false, some ("phone must be a valid phone number")) :=
  ⟨claim_C8_phone_validation.1 ("79175002040") (by decide) (by decide),
   claim_C8_phone_validation.2.1 79175002040 (by decide) (by decide),
   claim_C8_phone_validation.2.2.1 7917500204 (Or.inl (by decide)),
   claim_C8_phone_validation.2.2.2 ("7917500204") (by decide)⟩

theorem daysInMonth_le_31 (y m : Nat) : daysInMonth y m ≤ 31 := by
  unfold daysInMonth
  split_ifs <;> omega

/-- C7 counterexample: the claim says every rejection of the date field is
reported by returning a `(false, message)` pair and names `30.02.2000`;
but for `30.02.2000` the regex prefix matches and `strptime` raises a
`ValueError` that escapes `validate`, so no pair is returned. -/
theorem claim_C7_counterexample :
    DateField_validate ("date") false true (PyVal.str ("30.02.2000"))
      = Except.error ("day is out of range for month") := by
  rfl

/-- C7 amended: the date validator accepts exactly the strings that match
`DD.MM.YYYY` in full and denote real calendar dates; a string that fails
the pattern at the start is rejected with a `(false, message)` pair, but a
string that matches the pattern prefix and still fails to parse (an
impossible calendar date, or trailing characters) makes `validate` raise
instead of returning a pair. -/
theorem claim_C7_date_amended (s : String) :
    (DateField_validate ("date") false true (PyVal.str s) = Except.ok (true, none)
      ↔ specDateOk s = true) ∧
    (decomposeDate s = Option.none →
      DateField_validate ("date") false true (PyVal.str s)
        = Except.ok (false, some ("date must be a valid date"))) ∧
    (decomposeDate s ≠ Option.none → specDateOk s = false →
      ∃ e, DateField_validate ("date") false true (PyVal.str s) = Except.error e) := by
  unfold DateField_validate specDateOk
  rw [if_neg (by simp)]
  dsimp only [pyStr]
  cases hd : decomposeDate s with
  | none =>
      refine ⟨by simp, fun _ => rfl, fun hne _ => absurd rfl hne⟩
  | some val =>
      obtain ⟨d, m, y, r⟩ := val
      have h31 := daysInMonth_le_31 y m
      dsimp only
      refine ⟨?_, ?_, ?_⟩
      · split_ifs with h1 h2 h3 h4 <;> simp_all <;> omega
      · intro h
        simp at h
      · intro _ hspec
        split_ifs with h1 h2 h3 h4 <;>
          first
          | exact ⟨_, rfl⟩
          | (exfalso; simp_all)

/-- Witness for the amended C7: a pattern-prefix failure returns the pair,
a real-date string is accepted, and an impossible calendar date raises. -/
theorem claim_C7_date_amended_witness :
    (DateField_validate ("date") false true (PyVal.str ("xx"))
      = Except.ok (false, some ("date must be a valid date"))) ∧
    (DateField_validate ("date") false true (PyVal.str ("31.12.1999"))
      = Except.ok (true, none)) ∧
    (∃ e, DateField_validate ("date") false true (PyVal.str ("31.04.2001"))
      = Except.error e) :=
  ⟨(claim_C7_date_amended ("xx")).2.1 (by decide),
   (claim_C7_date_amended ("31.12.1999")).1.mpr (by decide),
   (claim_C7_date_amended ("31.04.2001")).2.2 (by decide) (by decide)⟩

/-- Witness for C4 at a concrete non-admin state whose token matches the
digest. -/
theorem claim_C4_check_auth_iff_witness :
    check_auth (fun _ => "D") ("2026101210")
      ⟨Option.none, "h", "D", "online_score", emptyArgsDict⟩ = true :=
  (claim_C4_check_auth_iff (fun _ => "D") ("2026101210")
    ⟨Option.none, "h", "D", "online_score", emptyArgsDict⟩).mpr (by decide)

/-- Witness for C9 at a concrete seed function. -/
theorem claim_C9_interests_shape_witness :
    (ClientsInterestsRequest_execute (fun _ => 5) ⟨[1, 2, 3], PyVal.none⟩).map Prod.fst
        = [1, 2, 3] ∧
    (ClientsInterestsRequest_execute (fun _ => 5) ⟨[1, 2, 3], PyVal.none⟩).all
        (fun p => goodTagPair p.2) = true :=
  claim_C9_interests_shape (fun _ => 5)

/-- Witness for C10 at concrete field values. -/
theorem claim_C10_gender_zero_like_absent_witness :
    get_score (PyVal.str ("79175002040")) (PyVal.str ("a@b.ru"))
        (PyVal.str ("01.01.1990")) (PyVal.int 0) (PyVal.str ("a")) (PyVal.str ("b"))
      = get_score (PyVal.str ("79175002040")) (PyVal.str ("a@b.ru"))
        (PyVal.str ("01.01.1990")) PyVal.none (PyVal.str ("a")) (PyVal.str ("b")) ∧
    OnlineScoreRequest_validate
        ⟨PyVal.str ("79175002040"), PyVal.str ("a@b.ru"), PyVal.str ("a"), PyVal.str ("b"),
         PyVal.str ("01.01.1990"), PyVal.int 0⟩
      = OnlineScoreRequest_validate
        ⟨PyVal.str ("79175002040"), PyVal.str ("a@b.ru"), PyVal.str ("a"), PyVal.str ("b"),
         PyVal.str ("01.01.1990"), PyVal.none⟩ ∧
    (GenderField_validate ("gender") false true (PyVal.int 0)).1 = true :=
  claim_C10_gender_zero_like_absent (PyVal.str ("79175002040")) (PyVal.str ("a@b.ru"))
    (PyVal.str ("01.01.1990")) (PyVal.str ("a")) (PyVal.str ("b"))
